import Mathlib

/-!
Verification of the match-to-visual-annotation pipeline
(`src/utils/pdf_handler.py`, `src/utils/excel_handler.py`,
`src/utils/image_handler.py`).

Modelling conventions (shallow embedding):
* Python strings are lists of Unicode code points (`PyStr := List ℕ`);
  `str.lower` / `str.upper` are modelled exactly on ASCII and the
  Latin-1 Supplement — including the one-to-many upper-casing
  U+00DF → "SS" and U+00B5 → U+039C — and as the identity on the
  remaining code points (`lowerChar`, `upperChar`); `str.strip` removes
  ASCII whitespace (`isSpaceChar`).
* Python floats (page/raster geometry) are modelled as exact rationals;
  `int(...)` is truncation toward zero (`pyTrunc`).
* File-system effects are reified: a saved raster is recorded as a value
  (its path tag and the list of outline-rectangle draw commands issued on
  it); the combined PDF is recorded as the ordered list of its pages.
* Python exceptions are `Except PyError`; a statement that lets an
  exception escape is a function returning `Except`, and a `try/except`
  that continues is an explicit recovery branch.
* External collaborators (pdfplumber page rasterization, PIL sheet
  rendering success) are parameters of the pipeline functions, as §6 of
  the specification treats them as contracts.
-/

namespace AuditRAM

/-! ### Python string primitives -/

/-- A Python string, as its list of code points. -/
abbrev PyStr := List ℕ

/-- Python `str.lower` on one code point. Exact on ASCII (A-Z → a-z) and
on the Latin-1 Supplement (U+00C0-U+00DE letters gain 32, e.g. É → é;
U+00D7 × is not a letter); identity on code points outside the modelled
table. -/
def lowerChar (c : ℕ) : ℕ :=
  if 65 ≤ c ∧ c ≤ 90 then c + 32
  else if 192 ≤ c ∧ c ≤ 222 ∧ c ≠ 215 then c + 32
  else c

/-- Python `str.upper` on one code point. Python upper-casing is
one-to-many, hence the list result: U+00DF ß maps to the two-letter
"SS" and U+00B5 µ to U+039C Μ. Exact on ASCII and the Latin-1
Supplement (a-z and U+00E0-U+00FE letters lose 32; U+00F7 ÷ is not a
letter; U+00FF ÿ maps to U+0178 Ÿ); identity on code points outside the
modelled table. -/
def upperChar (c : ℕ) : List ℕ :=
  if 97 ≤ c ∧ c ≤ 122 then [c - 32]
  else if 224 ≤ c ∧ c ≤ 254 ∧ c ≠ 247 then [c - 32]
  else if c = 223 then [83, 83]
  else if c = 181 then [924]
  else if c = 255 then [376]
  else [c]

/-- ASCII whitespace, the characters removed by Python `str.strip`. -/
def isSpaceChar (c : ℕ) : Bool :=
  c == 9 || c == 10 || c == 11 || c == 12 || c == 13 || c == 32

/-- Python `s.lower()`. -/
def pyLower (s : PyStr) : PyStr := s.map lowerChar

/-- Python `s.upper()` (concatenation of the per-character images). -/
def pyUpper (s : PyStr) : PyStr := s.flatMap upperChar

/-- Python `s.strip()`: drop whitespace from both ends. -/
def pyStrip (s : PyStr) : PyStr :=
  ((s.dropWhile isSpaceChar).reverse.dropWhile isSpaceChar).reverse

/-- Whether `t` starts with `q` (auxiliary for substring containment). -/
def startsWithL : PyStr → PyStr → Bool
  | [], _ => true
  | _ :: _, [] => false
  | q :: qs, t :: ts => q == t && startsWithL qs ts

/-- Python substring containment `q in t`. -/
def pyIn (q t : PyStr) : Bool := t.tails.any fun suf => startsWithL q suf

/-- Query normalization `q = query.lower().strip()`
(`pdf_handler.py` line 18, `excel_handler.py` line 235). -/
def normQuery (query : PyStr) : PyStr := pyStrip (pyLower query)

/-! ### Data model -/

/-- One extracted word of a PDF page, with its native rectangle
(`page.extract_words()` output consumed at `pdf_handler.py` lines 22-32). -/
structure Word where
  text : PyStr
  x0 : ℚ
  top : ℚ
  x1 : ℚ
  bottom : ℚ
deriving DecidableEq

/-- One PDF page: native dimensions in points and its extracted words. -/
structure Page where
  width : ℚ
  height : ℚ
  words : List Word
deriving DecidableEq

/-- A match record produced by `find_matches_in_pdf`
(`pdf_handler.py` lines 26-33). -/
structure PdfMatch where
  page : ℕ
  text : PyStr
  x0 : ℚ
  top : ℚ
  x1 : ℚ
  bottom : ℚ
deriving DecidableEq

/-- One worksheet: `ws.max_row`, `ws.max_column` and the cell values
(`None` for an empty cell); values are their `str(...)` rendering. -/
structure Sheet where
  maxRow : ℕ
  maxCol : ℕ
  cell : ℕ → ℕ → Option PyStr

/-- One OCR word from `pytesseract.image_to_data`
(`image_handler.py` lines 45-54). -/
structure OcrWord where
  text : PyStr
  left : ℤ
  top : ℤ
  width : ℤ
  height : ℤ
deriving DecidableEq

/-! ### MatchLocator (`find_matches_in_pdf`, `find_matches_in_sheet`,
`extract_boxes`) -/

/-- `find_matches_in_pdf` (`pdf_handler.py` lines 17-34): for each page in
order, for each extracted word, keep it when the normalized query is a
substring of the lower-cased stripped word text. -/
def find_matches_in_pdf (pdf : List Page) (query : PyStr) : List PdfMatch :=
  pdf.enum.flatMap fun pg =>
    pg.2.words.filterMap fun w =>
      let text := pyStrip w.text
      if pyIn (normQuery query) (pyLower text) then
        some { page := pg.1, text := text,
               x0 := w.x0, top := w.top, x1 := w.x1, bottom := w.bottom }
      else none

/-- `find_matches_in_sheet` (`excel_handler.py` lines 234-247): scan rows
`1..max_row` and columns `1..max_column`; skip empty cells; keep `(r, c)`
when the normalized query is a substring of the lower-cased cell text. -/
def find_matches_in_sheet (ws : Sheet) (query : PyStr) : List (ℕ × ℕ) :=
  ((List.range ws.maxRow).map (· + 1)).flatMap fun r =>
    ((List.range ws.maxCol).map (· + 1)).flatMap fun c =>
      match ws.cell r c with
      | none => []
      | some val => if pyIn (normQuery query) (pyLower val) then [(r, c)] else []

/-- `extract_boxes` (`image_handler.py` lines 33-56): the query is
lower-cased (not stripped); empty OCR words are skipped; a box is emitted
per matching word. -/
def extract_boxes (data : List OcrWord) (query : PyStr) :
    List (ℤ × ℤ × ℤ × ℤ) :=
  data.filterMap fun d =>
    let word := pyStrip d.text
    if word = [] then none
    else if pyIn (pyLower query) (pyLower word) then
      some (d.left, d.top, d.left + d.width, d.top + d.height)
    else none

/-! ### Case-folding lemmas -/

theorem pyLower_upperChar_of_ascii {c : ℕ} (h : c ≤ 127) :
    pyLower (upperChar c) = [lowerChar c] := by
  simp only [pyLower, upperChar]
  split_ifs <;>
    simp only [List.map_cons, List.map_nil, lowerChar] <;>
    split_ifs <;> simp <;> omega

theorem lowerChar_lowerChar (c : ℕ) : lowerChar (lowerChar c) = lowerChar c := by
  simp only [lowerChar]
  split_ifs <;> omega

theorem pyLower_pyUpper_of_ascii {s : PyStr} (h : ∀ c ∈ s, c ≤ 127) :
    pyLower (pyUpper s) = pyLower s := by
  induction s with
  | nil => rfl
  | cons c t ih =>
    simp only [pyUpper, List.flatMap_cons] at ih ⊢
    simp only [pyLower, List.map_append, List.map_cons] at ih ⊢
    rw [show List.map lowerChar (upperChar c) = [lowerChar c] from
      pyLower_upperChar_of_ascii (h c (List.mem_cons_self c t))]
    rw [show List.map lowerChar (t.flatMap upperChar) = List.map lowerChar t from
      ih fun d hd => h d (List.mem_cons_of_mem c hd)]
    rfl

theorem pyLower_pyLower (s : PyStr) : pyLower (pyLower s) = pyLower s := by
  induction s with
  | nil => rfl
  | cons c t ih =>
    simp only [pyLower, List.map_cons] at ih ⊢
    exact congrArg₂ List.cons (lowerChar_lowerChar c) ih

theorem normQuery_pyUpper_of_ascii {q : PyStr} (h : ∀ c ∈ q, c ≤ 127) :
    normQuery (pyUpper q) = normQuery q := by
  simp only [normQuery, pyLower_pyUpper_of_ascii h]

theorem normQuery_pyLower (q : PyStr) : normQuery (pyLower q) = normQuery q := by
  simp only [normQuery, pyLower_pyLower]

/-- C5 (amended). Lower half of the case-insensitivity law, for every
query Q: each match locator returns the same matches for `Q` and
`Q.lower()` (lower-casing is idempotent). Upper half, for every query QA
of ASCII characters: the same matches for `QA` and `QA.upper()`. The
upper half does not hold for arbitrary queries, because Python
upper-casing is not lower-case-stable (see the ß counterexample). -/
theorem case_insensitive_substring_law (pdf : List Page) (ws : Sheet)
    (data : List OcrWord) (Q QA : PyStr) (hQA : ∀ c ∈ QA, c ≤ 127) :
    find_matches_in_pdf pdf (pyLower Q) = find_matches_in_pdf pdf Q ∧
    find_matches_in_sheet ws (pyLower Q) = find_matches_in_sheet ws Q ∧
    extract_boxes data (pyLower Q) = extract_boxes data Q ∧
    find_matches_in_pdf pdf (pyUpper QA) = find_matches_in_pdf pdf QA ∧
    find_matches_in_sheet ws (pyUpper QA) = find_matches_in_sheet ws QA ∧
    extract_boxes data (pyUpper QA) = extract_boxes data QA := by
  refine ⟨?_, ?_, ?_, ?_, ?_, ?_⟩ <;>
    simp only [find_matches_in_pdf, find_matches_in_sheet, extract_boxes,
      normQuery_pyUpper_of_ascii hQA, normQuery_pyLower,
      pyLower_pyUpper_of_ascii hQA, pyLower_pyLower]

/-- Witness for C5: the ASCII query "re" matches the word "Report" the
same way after upper-casing, and the non-ASCII query ß behaves the same
after lower-casing. -/
theorem case_insensitive_substring_law_witness :
    find_matches_in_pdf
        [⟨600, 800, [⟨[82, 101, 112, 111, 114, 116], 1, 2, 3, 4⟩]⟩]
        (pyUpper [114, 101]) =
      [⟨0, [82, 101, 112, 111, 114, 116], 1, 2, 3, 4⟩] ∧
    find_matches_in_pdf
        [⟨600, 800, [⟨[82, 101, 112, 111, 114, 116], 1, 2, 3, 4⟩]⟩]
        (pyLower [223]) = [] := by
  have h := case_insensitive_substring_law
    [⟨600, 800, [⟨[82, 101, 112, 111, 114, 116], 1, 2, 3, 4⟩]⟩]
    ⟨1, 1, fun _ _ => none⟩ [] [223] [114, 101] (by decide)
  exact ⟨(h.2.2.2.1).trans (by decide), (h.1).trans (by decide)⟩

/-- Counterexample to C5 as stated: for a page whose one word is
"Straße" (code points [83, 116, 114, 97, 223, 101]) and the query ß
(code point 223), the query matches the word, but its Python
upper-casing "SS" — which lower-cases to "ss", not back to ß — does
not, so `find_matches(unit, Q.upper())` differs from
`find_matches(unit, Q)`. -/
theorem upper_case_law_fails_for_sharp_s :
    pyUpper [223] = [83, 83] ∧
    find_matches_in_pdf
        [⟨600, 800, [⟨[83, 116, 114, 97, 223, 101], 1, 2, 3, 4⟩]⟩] [223] =
      [⟨0, [83, 116, 114, 97, 223, 101], 1, 2, 3, 4⟩] ∧
    find_matches_in_pdf
        [⟨600, 800, [⟨[83, 116, 114, 97, 223, 101], 1, 2, 3, 4⟩]⟩]
        (pyUpper [223]) = [] := by
  refine ⟨rfl, by decide, by decide⟩

/-! ### Whitespace-only queries -/

theorem pyIn_nil (t : PyStr) : pyIn [] t = true := by
  cases t <;> simp [pyIn, startsWithL, List.tails]

theorem lowerChar_of_space {c : ℕ} (h : isSpaceChar c = true) :
    lowerChar c = c := by
  simp only [isSpaceChar, Bool.or_eq_true, beq_iff_eq] at h
  simp only [lowerChar]
  split_ifs <;> omega

theorem pyStrip_of_space {s : PyStr} (h : ∀ c ∈ s, isSpaceChar c = true) :
    pyStrip s = [] := by
  simp only [pyStrip]
  rw [List.dropWhile_eq_nil_iff.2 h]
  rfl

theorem normQuery_of_space {Q : PyStr} (h : ∀ c ∈ Q, isSpaceChar c = true) :
    normQuery Q = [] := by
  simp only [normQuery, pyLower]
  refine pyStrip_of_space fun c hc => ?_
  obtain ⟨d, hd, rfl⟩ := List.mem_map.1 hc
  rw [lowerChar_of_space (h d hd)]
  exact h d hd

theorem filterMap_some_eq_map {α β : Type} (f : α → β) (l : List α) :
    (l.filterMap fun a => some (f a)) = l.map f := by
  induction l with
  | nil => rfl
  | cons a t ih => simp [List.filterMap_cons, ih]

/-- C10. A non-empty all-whitespace query normalizes to the empty string
and matches every extracted word of every page and every populated cell of
every sheet. -/
theorem whitespace_query_matches_everything (pdf : List Page) (ws : Sheet)
    (Q : PyStr) (hne : Q ≠ []) (hsp : ∀ c ∈ Q, isSpaceChar c = true) :
    normQuery Q = [] ∧
    find_matches_in_pdf pdf Q =
      (pdf.enum.flatMap fun pg =>
        pg.2.words.map fun w =>
          { page := pg.1, text := pyStrip w.text,
            x0 := w.x0, top := w.top, x1 := w.x1, bottom := w.bottom }) ∧
    find_matches_in_sheet ws Q =
      ((List.range ws.maxRow).map (· + 1)).flatMap fun r =>
        ((List.range ws.maxCol).map (· + 1)).flatMap fun c =>
          match ws.cell r c with
          | none => []
          | some _ => [(r, c)] := by
  have hq : normQuery Q = [] := normQuery_of_space hsp
  refine ⟨hq, ?_, ?_⟩
  · simp only [find_matches_in_pdf, hq, pyIn_nil, if_true]
    refine congrArg _ (funext fun pg => ?_)
    exact filterMap_some_eq_map _ _
  · simp only [find_matches_in_sheet, hq]
    refine congrArg _ (funext fun r => congrArg _ (funext fun c => ?_))
    cases ws.cell r c with
    | none => rfl
    | some val => simp [pyIn_nil]

/-- Witness for C10 at a concrete one-space query, one-page document and
one-cell sheet. -/
theorem whitespace_query_matches_everything_witness :
    find_matches_in_pdf [⟨600, 800, [⟨[104, 105], 1, 2, 3, 4⟩]⟩] [32] =
      [⟨0, [104, 105], 1, 2, 3, 4⟩] ∧
    find_matches_in_sheet ⟨1, 1, fun r c =>
        if r = 1 ∧ c = 1 then some [104, 105] else none⟩ [32] = [(1, 1)] := by
  have h := whitespace_query_matches_everything
    [⟨600, 800, [⟨[104, 105], 1, 2, 3, 4⟩]⟩]
    ⟨1, 1, fun r c => if r = 1 ∧ c = 1 then some [104, 105] else none⟩
    [32] (by decide) (by decide)
  refine ⟨h.2.1.trans (by decide), h.2.2.trans ?_⟩
  decide

/-! ### CoordinateMapper and BoxRenderer -/

/-- Python exceptions that the modelled code can raise. -/
inductive PyError where
  | zeroDivision
  | renderFailure
  | indexError
deriving DecidableEq

/-- Python `int(...)` on an exact rational: truncation toward zero. -/
def pyTrunc (q : ℚ) : ℤ :=
  if 0 ≤ q.num then ((q.num.toNat / q.den : ℕ) : ℤ)
  else -(((-q.num).toNat / q.den : ℕ) : ℤ)

/-- Evaluation helper: truncation of an exact integer value. -/
theorem pyTrunc_intCast (n : ℤ) : pyTrunc ((n : ℚ)) = n := by
  simp only [pyTrunc, Rat.num_intCast, Rat.den_intCast, Nat.div_one]
  split_ifs with h <;> omega

/-- Evaluation helper: truncation of a rational known to be an integer. -/
theorem pyTrunc_eq_of_cast (q : ℚ) (n : ℤ) (h : q = (n : ℚ)) : pyTrunc q = n := by
  rw [h, pyTrunc_intCast]

/-- One `draw.rectangle([x0, y0, x1, y1], outline=stroke)` call. -/
structure DrawCmd where
  x0 : ℤ
  y0 : ℤ
  x1 : ℤ
  y1 : ℤ
deriving DecidableEq

/-- The stroke-width emulation loop
(`pdf_handler.py` lines 87-88, `image_handler.py` lines 65-66,
`excel_handler.py` lines 258-259): `for w in range(stroke_width):
draw.rectangle([x0-w, y0-w, x1+w, y1+w], outline=stroke)`.
Python `range` of a non-positive integer is empty. -/
def draw_box_passes (x0 y0 x1 y1 : ℤ) (stroke_width : ℤ) : List DrawCmd :=
  (List.range stroke_width.toNat).map fun w : ℕ =>
    { x0 := x0 - (w : ℤ), y0 := y0 - (w : ℤ),
      x1 := x1 + (w : ℤ), y1 := y1 + (w : ℤ) }

/-- `draw_boxes` (`image_handler.py` lines 62-69): the draw commands issued
on the image, one pass sequence per box. -/
def draw_boxes (boxes : List (ℤ × ℤ × ℤ × ℤ)) (stroke_width : ℤ) :
    List DrawCmd :=
  boxes.flatMap fun b => draw_box_passes b.1 b.2.1 b.2.2.1 b.2.2.2 stroke_width

/-- A native rectangle as read from a match dict
(`r["x0"], r["top"], r["x1"], r["bottom"]`). -/
structure RectQ where
  x0 : ℚ
  top : ℚ
  x1 : ℚ
  bottom : ℚ
deriving DecidableEq

/-- `draw_fallback` (`pdf_handler.py` lines 71-91): computes
`scale_x = img_w / page_w`, `scale_y = img_h / page_h` (Python raises
`ZeroDivisionError` on a zero denominator), truncates each scaled
coordinate with `int(...)`, and issues the stroke-width pass rectangles
for every rect. The returned list is the draw commands issued on the
saved fallback raster. -/
def draw_fallback (img_w img_h : ℕ) (page_w page_h : ℚ) (rects : List RectQ)
    (stroke_width : ℤ) : Except PyError (List DrawCmd) :=
  if page_w = 0 ∨ page_h = 0 then .error .zeroDivision
  else
    let scale_x : ℚ := img_w / page_w
    let scale_y : ℚ := img_h / page_h
    .ok (rects.flatMap fun r =>
      draw_box_passes (pyTrunc (r.x0 * scale_x)) (pyTrunc (r.top * scale_y))
        (pyTrunc (r.x1 * scale_x)) (pyTrunc (r.bottom * scale_y)) stroke_width)

/-- C1. With positive native dimensions, the fallback mapping scales every
coordinate by `raster / native` and truncates it to an integer pixel; the
drawn rectangles are the stroke passes around that pixel rectangle. -/
theorem fallback_mapping_formula (img_w img_h : ℕ) (page_w page_h : ℚ)
    (r : RectQ) (stroke_width : ℤ) (hw : 0 < page_w) (hh : 0 < page_h) :
    draw_fallback img_w img_h page_w page_h [r] stroke_width =
      .ok (draw_box_passes
        (pyTrunc (r.x0 * (img_w / page_w))) (pyTrunc (r.top * (img_h / page_h)))
        (pyTrunc (r.x1 * (img_w / page_w))) (pyTrunc (r.bottom * (img_h / page_h)))
        stroke_width) := by
  simp only [draw_fallback]
  rw [if_neg (by push_neg; exact ⟨ne_of_gt hw, ne_of_gt hh⟩)]
  simp

/-- Witness for C1: a 900×1200 raster of a 600×800 pt page maps the native
rect (100, 200, 160, 220) by scale 1.5 to pixels (150, 300, 240, 330). -/
theorem fallback_mapping_formula_witness :
    draw_fallback 900 1200 600 800 [⟨100, 200, 160, 220⟩] 2 =
      .ok [⟨150, 300, 240, 330⟩, ⟨149, 299, 241, 331⟩] := by
  rw [fallback_mapping_formula 900 1200 600 800 ⟨100, 200, 160, 220⟩ 2
    (by norm_num) (by norm_num)]
  rw [pyTrunc_eq_of_cast _ 150 (by norm_num), pyTrunc_eq_of_cast _ 300 (by norm_num),
    pyTrunc_eq_of_cast _ 240 (by norm_num), pyTrunc_eq_of_cast _ 330 (by norm_num)]
  refine congrArg Except.ok ?_
  decide

/-- C6. With stroke width `W > 0` the box renderer draws exactly `W`
concentric one-pixel outlines, pass `k` inflated outward by `k` pixels,
the outermost by `W - 1` pixels; with `W ≤ 0` it draws nothing. -/
theorem stroke_inflation (x0 y0 x1 y1 W : ℤ) :
    (0 < W →
      (draw_box_passes x0 y0 x1 y1 W).length = W.toNat ∧
      (∀ k : ℕ, (k : ℤ) < W →
        (draw_box_passes x0 y0 x1 y1 W)[k]? =
          some { x0 := x0 - k, y0 := y0 - k, x1 := x1 + k, y1 := y1 + k }) ∧
      (draw_box_passes x0 y0 x1 y1 W)[W.toNat - 1]? =
        some { x0 := x0 - (W - 1), y0 := y0 - (W - 1),
               x1 := x1 + (W - 1), y1 := y1 + (W - 1) }) ∧
    (W ≤ 0 → draw_box_passes x0 y0 x1 y1 W = []) := by
  constructor
  · intro hW
    have hlen : (draw_box_passes x0 y0 x1 y1 W).length = W.toNat := by
      simp only [draw_box_passes, List.length_map, List.length_range]
    have hget : ∀ k : ℕ, (k : ℤ) < W →
        (draw_box_passes x0 y0 x1 y1 W)[k]? =
          some { x0 := x0 - k, y0 := y0 - k, x1 := x1 + k, y1 := y1 + k } := by
      intro k hk
      have hk2 : k < W.toNat := by omega
      simp only [draw_box_passes, List.getElem?_map, List.getElem?_range hk2,
        Option.map_some']
    refine ⟨hlen, hget, ?_⟩
    have hcast : ((W.toNat - 1 : ℕ) : ℤ) = W - 1 := by omega
    have hlt : ((W.toNat - 1 : ℕ) : ℤ) < W := by omega
    rw [hget (W.toNat - 1) hlt, hcast]
  · intro hW
    have : W.toNat = 0 := by omega
    simp [draw_box_passes, this]

/-- Witness for C6: with stroke width 3 the outermost outline is inflated
by 2 pixels; a non-positive stroke width draws nothing. -/
theorem stroke_inflation_witness :
    (draw_box_passes 10 20 30 40 3)[2]? = some ⟨8, 18, 32, 42⟩ ∧
    draw_box_passes 10 20 30 40 (-2) = [] := by
  constructor
  · have h := ((stroke_inflation 10 20 30 40 3).1 (by decide)).2.2
    exact h.trans (by decide)
  · exact (stroke_inflation 10 20 30 40 (-2)).2 (by decide)

/-! ### UnitRenderer and FormatPipeline -/

/-- Output file identities produced by the pipelines (the deterministic
path strings of the source, keyed by unit index or sheet position). -/
inductive OutPath where
  | pageFallback (pnum : ℕ)
  | pageDrawrect (pnum : ℕ)
  | sheetAnnot (sheetIdx : ℕ)
  | combinedPdf
deriving DecidableEq

/-- The record of one rendered page: its index, the annotation draw
commands issued on the saved canonical (fallback) raster, and whether the
opportunistic `draw_with_drawrect` attempt saved its diagnostic raster. -/
structure PageOutput where
  pnum : ℕ
  fallbackDraws : List DrawCmd
  nativeSaved : Bool
deriving DecidableEq

/-- One iteration of the page loop of `annotate_pdf_and_build_combined`
(`pdf_handler.py` lines 126-155). `render` is the pdfplumber
rasterization collaborator (`render_page`, line 132), returning the pixel
size of the raster or raising; `nativeOk` is the outcome of the native
`draw_with_drawrect` attempt (its exceptions are caught inside, lines
52-65, so it is a total boolean). A page with no matches and no
force-render flag is skipped before any rasterization (lines 129-130).
Neither rasterization nor fallback drawing is guarded by a handler, so
their exceptions escape. -/
def processPage (render : ℕ → Page → Except PyError (ℕ × ℕ))
    (nativeOk : ℕ → Bool) (allMatches : List PdfMatch) (resolution : ℕ)
    (outline_width : ℤ) (force_render : Bool) (pnum : ℕ) (page : Page) :
    Except PyError (Option PageOutput) :=
  let page_matches := allMatches.filter fun m => m.page = pnum
  if page_matches = [] ∧ force_render = false then .ok none
  else
    match render resolution page with
    | .error e => .error e
    | .ok dims =>
      match draw_fallback dims.1 dims.2 page.width page.height
          (page_matches.map fun m =>
            { x0 := m.x0, top := m.top, x1 := m.x1, bottom := m.bottom })
          outline_width with
      | .error e => .error e
      | .ok draws =>
        .ok (some { pnum := pnum, fallbackDraws := draws,
                    nativeSaved := nativeOk pnum })

/-- The page loop of `annotate_pdf_and_build_combined`: pages in index
order, any escaping exception aborts the whole loop. -/
def processPages (render : ℕ → Page → Except PyError (ℕ × ℕ))
    (nativeOk : ℕ → Bool) (allMatches : List PdfMatch) (resolution : ℕ)
    (outline_width : ℤ) (force_render : Bool) :
    List (ℕ × Page) → Except PyError (List PageOutput)
  | [] => .ok []
  | (pnum, page) :: rest =>
    match processPage render nativeOk allMatches resolution outline_width
        force_render pnum page with
    | .error e => .error e
    | .ok none =>
      processPages render nativeOk allMatches resolution outline_width
        force_render rest
    | .ok (some o) =>
      match processPages render nativeOk allMatches resolution outline_width
          force_render rest with
      | .error e => .error e
      | .ok outs => .ok (o :: outs)

/-- `images_to_pdf` (`pdf_handler.py` lines 97-99): the first image
establishes the base page and the rest are appended in list order, so the
combined file holds exactly the input list as pages; an empty list raises
(`imgs[0]` IndexError). -/
def images_to_pdf (image_list : List OutPath) : Except PyError (List OutPath) :=
  if image_list = [] then .error .indexError else .ok image_list

/-- PageAggregator ordering (`pdf_handler.py` line 157):
`ordered = [chosen_images[k] for k in sorted(chosen_images.keys())]`.
The dict is an association list with unique keys; Python `sorted` is
modelled by insertion sort. -/
def ordered_paths (chosen_images : List (ℕ × OutPath)) : List OutPath :=
  ((chosen_images.map Prod.fst).insertionSort (· ≤ ·)).filterMap fun k =>
    chosen_images.lookup k

/-- The observable outcome of one `annotate_pdf_and_build_combined` run:
the per-page outputs, the `ordered` path list, the pages of the combined
artifact file (`none` when no file was written, `pdf_handler.py` lines
160-161), and the second component of the return value (line 164), which
is the combined path irrespective of whether the file was written. -/
structure PdfRun where
  outputs : List PageOutput
  ordered : List OutPath
  combinedFile : Option (List OutPath)
  returnedCombined : OutPath
deriving DecidableEq

/-- `annotate_pdf_and_build_combined` (`pdf_handler.py` lines 105-164). -/
def annotate_pdf_and_build_combined (render : ℕ → Page → Except PyError (ℕ × ℕ))
    (nativeOk : ℕ → Bool) (pages : List Page) (query : PyStr) (resolution : ℕ)
    (outline_width : ℤ) (force_render : Bool) : Except PyError PdfRun :=
  match processPages render nativeOk (find_matches_in_pdf pages query)
      resolution outline_width force_render pages.enum with
  | .error e => .error e
  | .ok outs =>
    let chosen := outs.map fun o => (o.pnum, OutPath.pageFallback o.pnum)
    let ordered := ordered_paths chosen
    .ok { outputs := outs, ordered := ordered,
          combinedFile := if ordered = [] then none
                          else (images_to_pdf ordered).toOption,
          returnedCombined := .combinedPdf }

/-- `draw_matches_on_image` (`excel_handler.py` lines 252-261): cells
outside the rendered grid are skipped; the rest get their outline passes.
The recorded value is the list of cells actually annotated. -/
def draw_matches_on_image (maxRow maxCol : ℕ) (match_cells : List (ℕ × ℕ)) :
    List (ℕ × ℕ) :=
  match_cells.filter fun rc =>
    1 ≤ rc.1 ∧ rc.1 ≤ maxRow ∧ 1 ≤ rc.2 ∧ rc.2 ≤ maxCol

/-- The record of one rendered sheet: its annotated PNG identity and the
cells annotated on it. -/
structure SheetOutput where
  path : OutPath
  annotatedCells : List (ℕ × ℕ)
deriving DecidableEq

/-- The observable outcome of one `process_excel_file` run. -/
structure ExcelRun where
  outputs : List SheetOutput
  combinedFile : Option (List OutPath)
  returnedCombined : OutPath
deriving DecidableEq

/-- `process_excel_file` (`excel_handler.py` lines 266-341): every sheet
is processed, matches or not (there is no skip and no force-render
parameter); `render_sheet_to_image` is guarded by `try/except ... continue`
(lines 310-315), modelled by the `renderOk` collaborator outcome per sheet
position; `draw_matches_on_image` and the append run for every sheet whose
render succeeded; the combined PDF is built from the generated images in
sheet order when any exist (lines 330-339), and the returned combined path
is always `annotated_combined.pdf` (line 341). -/
def process_excel_file (renderOk : ℕ → Bool) (sheets : List Sheet)
    (query : PyStr) : ExcelRun :=
  let generated := sheets.enum.filterMap fun s =>
    let match_cells := find_matches_in_sheet s.2 query
    if renderOk s.1 then
      some { path := OutPath.sheetAnnot s.1,
             annotatedCells :=
               draw_matches_on_image s.2.maxRow s.2.maxCol match_cells }
    else none
  { outputs := generated,
    combinedFile := if generated = [] then none
                    else (images_to_pdf (generated.map SheetOutput.path)).toOption,
    returnedCombined := .combinedPdf }

/-! ### No-match skip (C2) -/

/-- C2 (amended). For a page-oriented unit with zero matches:
with `force_render = false` the page is skipped before rasterization (the
result is `none` for every rasterizer, even a failing one) and with
`force_render = true` exactly one rendered output is produced with zero
annotation draw commands. (Grid-oriented sheets are rendered regardless
of matches; see the counterexample.) -/
theorem no_match_skip_pages (nativeOk : ℕ → Bool) (allMatches : List PdfMatch)
    (resolution : ℕ) (outline_width : ℤ) (pnum : ℕ) (page : Page)
    (render : ℕ → Page → Except PyError (ℕ × ℕ)) (w h : ℕ)
    (hm : allMatches.filter (fun m => m.page = pnum) = [])
    (hr : render resolution page = Except.ok (w, h))
    (hw : page.width ≠ 0) (hh : page.height ≠ 0) :
    (∀ render2 : ℕ → Page → Except PyError (ℕ × ℕ),
      processPage render2 nativeOk allMatches resolution outline_width
        false pnum page = Except.ok none) ∧
    processPage render nativeOk allMatches resolution outline_width
        true pnum page =
      Except.ok (some { pnum := pnum, fallbackDraws := [],
                        nativeSaved := nativeOk pnum }) := by
  constructor
  · intro render2
    simp [processPage, hm]
  · simp only [processPage, hm]
    rw [if_neg (by simp)]
    rw [hr]
    simp [draw_fallback, hw, hh]

/-- Witness for C2 at a concrete empty-match page. -/
theorem no_match_skip_pages_witness :
    processPage (fun _ _ => Except.ok (900, 1200)) (fun _ => true) [] 150 3
      false 0 ⟨600, 800, []⟩ = Except.ok none ∧
    processPage (fun _ _ => Except.ok (900, 1200)) (fun _ => true) [] 150 3
      true 0 ⟨600, 800, []⟩ =
      Except.ok (some { pnum := 0, fallbackDraws := [], nativeSaved := true }) := by
  have h := no_match_skip_pages (fun _ => true) [] 150 3 0 ⟨600, 800, []⟩
    (fun _ _ => Except.ok (900, 1200)) 900 1200 rfl rfl
    (by norm_num) (by norm_num)
  exact ⟨h.1 _, h.2⟩

/-- Counterexample to C2 as stated: a sheet with one populated cell and a
query with zero matches is still rendered by the grid pipeline (one
`SheetOutput` with zero annotated cells), with no force-render flag in
play. -/
theorem sheet_rendered_without_matches :
    find_matches_in_sheet
      ⟨1, 1, fun r c => if r = 1 ∧ c = 1 then some [97, 98, 99] else none⟩
      [122] = [] ∧
    (process_excel_file (fun _ => true)
        [⟨1, 1, fun r c => if r = 1 ∧ c = 1 then some [97, 98, 99] else none⟩]
        [122]).outputs =
      [{ path := OutPath.sheetAnnot 0, annotatedCells := [] }] := by
  constructor
  · decide
  · decide

/-! ### Empty aggregation (C3) -/

/-- C3 (amended). When no unit produced a rendered raster, no combined
artifact file is created and the outcome is not an error; however the
function still returns the combined-artifact path (not a none value) as
the second component of its result. -/
theorem empty_aggregation (render : ℕ → Page → Except PyError (ℕ × ℕ))
    (nativeOk : ℕ → Bool) (pages : List Page) (query : PyStr)
    (resolution : ℕ) (outline_width : ℤ) (force_render : Bool)
    (h : processPages render nativeOk (find_matches_in_pdf pages query)
        resolution outline_width force_render pages.enum = Except.ok []) :
    annotate_pdf_and_build_combined render nativeOk pages query resolution
        outline_width force_render =
      Except.ok { outputs := [], ordered := [], combinedFile := none,
                  returnedCombined := OutPath.combinedPdf } := by
  simp only [annotate_pdf_and_build_combined, h]
  rfl

/-- Witness for C3: a two-page document with no matches produces no
outputs, no combined file, a non-error result and the combined path. -/
theorem empty_aggregation_witness :
    annotate_pdf_and_build_combined (fun _ _ => Except.ok (900, 1200))
      (fun _ => true) [⟨600, 800, []⟩, ⟨600, 800, []⟩] [122] 150 3 false =
      Except.ok { outputs := [], ordered := [], combinedFile := none,
                  returnedCombined := OutPath.combinedPdf } :=
  empty_aggregation _ _ _ _ _ _ _ (by rfl)

/-- Counterexample to C3 as stated: with zero rendered units the pipeline
does not return a none value for the combined artifact; it returns the
combined path while the combined file does not exist. -/
theorem combined_path_returned_without_file :
    annotate_pdf_and_build_combined (fun _ _ => Except.error PyError.renderFailure)
      (fun _ => false) [⟨600, 800, []⟩] [122] 150 3 false =
      Except.ok { outputs := [], ordered := [], combinedFile := none,
                  returnedCombined := OutPath.combinedPdf } := by
  rfl

/-! ### Partial-failure containment (C4) -/

/-- C4 (amended). Per-unit rasterization failures are caught only in the
grid pipeline: with three sheets where sheet 1 fails to render, sheets 0
and 2 are rendered and combined in index order. (In the page pipeline a
per-unit failure aborts the whole run; see the counterexample.) -/
theorem sheet_failure_containment (s0 s1 s2 : Sheet) (query : PyStr) :
    (process_excel_file (fun i => decide (i ≠ 1)) [s0, s1, s2] query).outputs =
      [{ path := OutPath.sheetAnnot 0,
         annotatedCells := draw_matches_on_image s0.maxRow s0.maxCol
           (find_matches_in_sheet s0 query) },
       { path := OutPath.sheetAnnot 2,
         annotatedCells := draw_matches_on_image s2.maxRow s2.maxCol
           (find_matches_in_sheet s2 query) }] ∧
    (process_excel_file (fun i => decide (i ≠ 1)) [s0, s1, s2] query).combinedFile =
      some [OutPath.sheetAnnot 0, OutPath.sheetAnnot 2] := by
  constructor
  · simp [process_excel_file, List.enum, List.enumFrom, List.filterMap_cons]
  · simp [process_excel_file, List.enum, List.enumFrom, List.filterMap_cons,
      images_to_pdf, Except.toOption]

/-- Counterexample to C4 as stated: in the page pipeline, with three pages
where page 1 raises during rasterization (pages 1 and 2 have matches), the
run aborts with the exception instead of rendering and combining the
other pages. -/
theorem page_failure_aborts_run :
    annotate_pdf_and_build_combined
      (fun _ pg => if pg.words.length = 2 then Except.error PyError.renderFailure
                   else Except.ok (900, 1200))
      (fun _ => true)
      [⟨600, 800, []⟩,
       ⟨600, 800, [⟨[120], 100, 200, 160, 220⟩, ⟨[120], 100, 200, 160, 220⟩]⟩,
       ⟨600, 800, [⟨[120], 100, 200, 160, 220⟩]⟩]
      [120] 150 3 false = Except.error PyError.renderFailure := by
  rfl

/-! ### Degenerate native dimensions (C9) -/

/-- C9 (amended). A unit whose native width or height is zero makes the
fallback mapping raise a division-by-zero failure, and the page pipeline
has no per-unit handler: the failure propagates out of the page loop,
aborting the whole run rather than skipping only that unit. -/
theorem degenerate_dims_abort (render : ℕ → Page → Except PyError (ℕ × ℕ))
    (nativeOk : ℕ → Bool) (allMatches : List PdfMatch) (resolution : ℕ)
    (outline_width : ℤ) (pnum : ℕ) (page : Page) (rest : List (ℕ × Page))
    (w h : ℕ) (hz : page.width = 0 ∨ page.height = 0)
    (hr : render resolution page = Except.ok (w, h)) :
    processPage render nativeOk allMatches resolution outline_width
      true pnum page = Except.error PyError.zeroDivision ∧
    processPages render nativeOk allMatches resolution outline_width
      true ((pnum, page) :: rest) = Except.error PyError.zeroDivision := by
  have h1 : processPage render nativeOk allMatches resolution outline_width
      true pnum page = Except.error PyError.zeroDivision := by
    simp only [processPage]
    rw [if_neg (by simp)]
    rw [hr]
    simp [draw_fallback, hz]
  exact ⟨h1, by simp only [processPages, h1]⟩

/-- Witness for C9: a zero-width page aborts the page loop even though a
healthy page follows it. -/
theorem degenerate_dims_abort_witness :
    processPages (fun _ _ => Except.ok (900, 1200)) (fun _ => true) [] 150 3
      true [(0, ⟨0, 800, []⟩), (1, ⟨600, 800, []⟩)] =
      Except.error PyError.zeroDivision :=
  (degenerate_dims_abort (fun _ _ => Except.ok (900, 1200)) (fun _ => true)
    [] 150 3 0 ⟨0, 800, []⟩ [(1, ⟨600, 800, []⟩)] 900 1200
    (Or.inl rfl) rfl).2

/-- Counterexample to C9 as stated: no `InvalidGeometry` failure is
signalled and the unit is not skipped — a zero-width page with a match
aborts the entire run (the healthy second page is never rendered), and a
negative native width raises nothing at all, yielding a negatively scaled
pixel rectangle. -/
theorem no_invalid_geometry_check :
    annotate_pdf_and_build_combined (fun _ _ => Except.ok (900, 1200))
      (fun _ => true)
      [⟨0, 800, [⟨[120], 100, 200, 160, 220⟩]⟩,
       ⟨600, 800, [⟨[120], 100, 200, 160, 220⟩]⟩]
      [120] 150 3 false = Except.error PyError.zeroDivision ∧
    draw_fallback 900 1200 (-600) 800 [⟨100, 200, 160, 220⟩] 1 =
      Except.ok [⟨-150, 300, -240, 330⟩] := by
  constructor
  · rfl
  · simp only [draw_fallback]
    rw [if_neg (by norm_num)]
    simp only [List.flatMap_cons, List.flatMap_nil, List.append_nil]
    rw [pyTrunc_eq_of_cast _ (-150) (by norm_num),
      pyTrunc_eq_of_cast _ 300 (by norm_num),
      pyTrunc_eq_of_cast _ (-240) (by norm_num),
      pyTrunc_eq_of_cast _ 330 (by norm_num)]
    refine congrArg Except.ok ?_
    decide

/-! ### Native-attempt frame property (C8) -/

/-- The canonical (fallback) part of a page output: its index and the
draw commands issued on the saved fallback raster. -/
def canonPage (o : PageOutput) : ℕ × List DrawCmd := (o.pnum, o.fallbackDraws)

/-- The canonical part of a whole run: everything except the
`nativeSaved` diagnostic flags. -/
def canonRun (r : PdfRun) :
    List (ℕ × List DrawCmd) × List OutPath × Option (List OutPath) × OutPath :=
  (r.outputs.map canonPage, r.ordered, r.combinedFile, r.returnedCombined)

theorem processPage_canon (render : ℕ → Page → Except PyError (ℕ × ℕ))
    (n1 n2 : ℕ → Bool) (allMatches : List PdfMatch) (resolution : ℕ)
    (outline_width : ℤ) (force_render : Bool) (pnum : ℕ) (page : Page) :
    (processPage render n1 allMatches resolution outline_width force_render
       pnum page).map (Option.map canonPage) =
    (processPage render n2 allMatches resolution outline_width force_render
       pnum page).map (Option.map canonPage) := by
  simp only [processPage]
  by_cases hc : (allMatches.filter fun m => m.page = pnum) = [] ∧
      force_render = false
  · rw [if_pos hc, if_pos hc]
  · rw [if_neg hc, if_neg hc]
    cases render resolution page with
    | error e => rfl
    | ok dims =>
      dsimp only
      cases draw_fallback dims.1 dims.2 page.width page.height
          ((allMatches.filter fun m => m.page = pnum).map fun m =>
            { x0 := m.x0, top := m.top, x1 := m.x1, bottom := m.bottom })
          outline_width with
      | error e => rfl
      | ok draws => rfl

theorem processPages_canon (render : ℕ → Page → Except PyError (ℕ × ℕ))
    (n1 n2 : ℕ → Bool) (allMatches : List PdfMatch) (resolution : ℕ)
    (outline_width : ℤ) (force_render : Bool) (l : List (ℕ × Page)) :
    (processPages render n1 allMatches resolution outline_width force_render
       l).map (List.map canonPage) =
    (processPages render n2 allMatches resolution outline_width force_render
       l).map (List.map canonPage) := by
  induction l with
  | nil => rfl
  | cons hd rest ih =>
    obtain ⟨pnum, page⟩ := hd
    have hp := processPage_canon render n1 n2 allMatches resolution
      outline_width force_render pnum page
    simp only [processPages]
    cases h1 : processPage render n1 allMatches resolution outline_width
        force_render pnum page with
    | error e =>
      cases h2 : processPage render n2 allMatches resolution outline_width
          force_render pnum page with
      | error e2 =>
        rw [h1, h2] at hp
        simp only [Except.map] at hp
        injection hp with he
        subst he
        rfl
      | ok o2 =>
        rw [h1, h2] at hp
        simp only [Except.map] at hp
        exact Except.noConfusion hp
    | ok o1 =>
      cases h2 : processPage render n2 allMatches resolution outline_width
          force_render pnum page with
      | error e2 =>
        rw [h1, h2] at hp
        simp only [Except.map] at hp
        exact Except.noConfusion hp
      | ok o2 =>
        rw [h1, h2] at hp
        simp only [Except.map, Except.ok.injEq] at hp
        cases o1 with
        | none =>
          cases o2 with
          | none => exact ih
          | some o2v => simp at hp
        | some o1v =>
          cases o2 with
          | none => simp at hp
          | some o2v =>
            simp only [Option.map_some', Option.some.injEq] at hp
            cases g1 : processPages render n1 allMatches resolution
                outline_width force_render rest with
            | error e =>
              cases g2 : processPages render n2 allMatches resolution
                  outline_width force_render rest with
              | error e2 =>
                rw [g1, g2] at ih
                simp only [Except.map] at ih
                injection ih with he
                subst he
                rfl
              | ok outs2 =>
                rw [g1, g2] at ih
                simp only [Except.map] at ih
                exact Except.noConfusion ih
            | ok outs1 =>
              cases g2 : processPages render n2 allMatches resolution
                  outline_width force_render rest with
              | error e2 =>
                rw [g1, g2] at ih
                simp only [Except.map] at ih
                exact Except.noConfusion ih
              | ok outs2 =>
                rw [g1, g2] at ih
                simp only [Except.map, Except.ok.injEq] at ih
                simp only [Except.map, Except.ok.injEq, List.map_cons, hp, ih]

/-- C8. The opportunistic native draw attempt never alters the canonical
fallback output: for any two outcomes of the native attempt (for example
all-success and all-failure), the run produces the same page indices, the
same fallback draw commands, the same ordered path list and the same
combined artifact — only the diagnostic `nativeSaved` flags differ. -/
theorem native_attempt_frame (render : ℕ → Page → Except PyError (ℕ × ℕ))
    (n1 n2 : ℕ → Bool) (pages : List Page) (query : PyStr) (resolution : ℕ)
    (outline_width : ℤ) (force_render : Bool) :
    (annotate_pdf_and_build_combined render n1 pages query resolution
       outline_width force_render).map canonRun =
    (annotate_pdf_and_build_combined render n2 pages query resolution
       outline_width force_render).map canonRun := by
  have hp := processPages_canon render n1 n2 (find_matches_in_pdf pages query)
    resolution outline_width force_render pages.enum
  simp only [annotate_pdf_and_build_combined]
  cases h1 : processPages render n1 (find_matches_in_pdf pages query)
      resolution outline_width force_render pages.enum with
  | error e =>
    cases h2 : processPages render n2 (find_matches_in_pdf pages query)
        resolution outline_width force_render pages.enum with
    | error e2 =>
      rw [h1, h2] at hp
      simp only [Except.map] at hp
      injection hp with he
      subst he
      rfl
    | ok outs2 =>
      rw [h1, h2] at hp
      simp only [Except.map] at hp
      exact Except.noConfusion hp
  | ok outs1 =>
    cases h2 : processPages render n2 (find_matches_in_pdf pages query)
        resolution outline_width force_render pages.enum with
    | error e2 =>
      rw [h1, h2] at hp
      simp only [Except.map] at hp
      exact Except.noConfusion hp
    | ok outs2 =>
      rw [h1, h2] at hp
      simp only [Except.map, Except.ok.injEq] at hp
      have key : ∀ outs : List PageOutput,
          outs.map (fun o => (o.pnum, OutPath.pageFallback o.pnum)) =
          (outs.map canonPage).map (fun p => (p.1, OutPath.pageFallback p.1)) := by
        intro outs
        rw [List.map_map]
        rfl
      have hchosen : outs1.map (fun o => (o.pnum, OutPath.pageFallback o.pnum)) =
          outs2.map (fun o => (o.pnum, OutPath.pageFallback o.pnum)) := by
        rw [key outs1, key outs2, hp]
      simp only [Except.map, Except.ok.injEq, canonRun, hchosen, hp]

/-! ### Aggregation ordering (C7) -/

/-- Comparison of chosen-image entries by unit index, the key order used
by `sorted(chosen_images.keys())`. -/
def keyLE (a b : ℕ × OutPath) : Prop := a.1 ≤ b.1

instance : DecidableRel keyLE := fun a b =>
  inferInstanceAs (Decidable (a.1 ≤ b.1))

instance : IsTotal (ℕ × OutPath) keyLE := ⟨fun a b => Nat.le_total a.1 b.1⟩

instance : IsTrans (ℕ × OutPath) keyLE := ⟨fun _ _ _ h1 h2 => Nat.le_trans h1 h2⟩

theorem lookup_eq_some_of_mem :
    ∀ {l : List (ℕ × OutPath)} {p : ℕ × OutPath},
      (l.map Prod.fst).Nodup → p ∈ l → l.lookup p.1 = some p.2 := by
  intro l
  induction l with
  | nil => intro p _ hp; cases hp
  | cons a t ih =>
    intro p nd hp
    obtain ⟨k, v⟩ := a
    simp only [List.map_cons, List.nodup_cons] at nd
    rcases List.mem_cons.1 hp with rfl | hmem
    · simp [List.lookup_cons]
    · have hne : p.1 ≠ k := by
        intro he
        exact nd.1 (he ▸ List.mem_map_of_mem Prod.fst hmem)
      rw [List.lookup_cons]
      have hb : (p.1 == k) = false := beq_eq_false_iff_ne.2 hne
      rw [hb]
      exact ih nd.2 hmem

theorem lookup_eq_none_of_not_mem :
    ∀ {l : List (ℕ × OutPath)} {k : ℕ},
      k ∉ l.map Prod.fst → l.lookup k = none := by
  intro l
  induction l with
  | nil => intro k _; rfl
  | cons a t ih =>
    intro k hk
    obtain ⟨a1, a2⟩ := a
    simp only [List.map_cons, List.mem_cons, not_or] at hk
    rw [List.lookup_cons]
    have hb : (k == a1) = false := beq_eq_false_iff_ne.2 hk.1
    rw [hb]
    exact ih hk.2

theorem mem_of_lookup_eq_some :
    ∀ {l : List (ℕ × OutPath)} {k : ℕ} {v : OutPath},
      l.lookup k = some v → (k, v) ∈ l := by
  intro l
  induction l with
  | nil => intro k v h; cases h
  | cons a t ih =>
    intro k v h
    obtain ⟨a1, a2⟩ := a
    rw [List.lookup_cons] at h
    cases hb : k == a1 with
    | true =>
      rw [hb] at h
      have hk : k = a1 := beq_iff_eq.1 hb
      injection h with hv
      subst hk
      subst hv
      exact List.mem_cons_self _ _
    | false =>
      rw [hb] at h
      exact List.mem_cons_of_mem _ (ih h)

theorem lookup_perm {l1 l2 : List (ℕ × OutPath)} (hperm : List.Perm l1 l2)
    (nd : (l1.map Prod.fst).Nodup) (k : ℕ) : l1.lookup k = l2.lookup k := by
  have nd2 : (l2.map Prod.fst).Nodup := ((hperm.map Prod.fst).nodup_iff).1 nd
  cases h1 : l1.lookup k with
  | none =>
    have hk : k ∉ l1.map Prod.fst := by
      intro hmem
      obtain ⟨p, hp, hpk⟩ := List.mem_map.1 hmem
      have hx := lookup_eq_some_of_mem nd hp
      rw [hpk, h1] at hx
      exact Option.noConfusion hx
    have hk2 : k ∉ l2.map Prod.fst :=
      fun hmem => hk (((hperm.map Prod.fst).mem_iff).2 hmem)
    exact (lookup_eq_none_of_not_mem hk2).symm
  | some v =>
    have hm2 : (k, v) ∈ l2 := hperm.mem_iff.1 (mem_of_lookup_eq_some h1)
    exact (lookup_eq_some_of_mem nd2 hm2).symm

theorem filterMap_lookup_eq_map_snd (l : List (ℕ × OutPath)) :
    ∀ m : List (ℕ × OutPath), (∀ p ∈ m, l.lookup p.1 = some p.2) →
      (m.map Prod.fst).filterMap (fun k => l.lookup k) = m.map Prod.snd := by
  intro m
  induction m with
  | nil => intro _; rfl
  | cons a t ih =>
    intro h
    simp only [List.map_cons, List.filterMap_cons, h a (List.mem_cons_self a t)]
    rw [ih fun p hp => h p (List.mem_cons_of_mem a hp)]

/-- C7. The aggregation step emits exactly the chosen rasters sorted by
ascending unit index: the `ordered` list equals the chosen entries sorted
by key, projected to their paths; it is invariant under any permutation
of the chosen entries (the order units were completed in); the key order
is ascending; and the combined artifact holds that list as its pages. -/
theorem aggregation_ordering (chosen chosen2 : List (ℕ × OutPath))
    (nd : (chosen.map Prod.fst).Nodup) (hperm : List.Perm chosen2 chosen) :
    ordered_paths chosen = (chosen.insertionSort keyLE).map Prod.snd ∧
    ordered_paths chosen2 = ordered_paths chosen ∧
    ((chosen.insertionSort keyLE).map Prod.fst).Sorted (· ≤ ·) ∧
    (ordered_paths chosen ≠ [] →
      images_to_pdf (ordered_paths chosen) = Except.ok (ordered_paths chosen)) := by
  have hsorted : ∀ l : List (ℕ × OutPath),
      ((l.insertionSort keyLE).map Prod.fst).Sorted (· ≤ ·) :=
    fun l => (List.sorted_insertionSort keyLE l).map Prod.fst fun _ _ h => h
  have hkeys_eq : ∀ l : List (ℕ × OutPath),
      (l.map Prod.fst).insertionSort (· ≤ ·) = (l.insertionSort keyLE).map Prod.fst := by
    intro l
    refine List.eq_of_perm_of_sorted ?_ (List.sorted_insertionSort _ _) (hsorted l)
    exact (List.perm_insertionSort _ _).trans
      ((List.perm_insertionSort keyLE l).map Prod.fst).symm
  have ha : ordered_paths chosen = (chosen.insertionSort keyLE).map Prod.snd := by
    rw [ordered_paths, hkeys_eq chosen]
    exact filterMap_lookup_eq_map_snd chosen (chosen.insertionSort keyLE)
      fun p hp => lookup_eq_some_of_mem nd ((List.mem_insertionSort keyLE).1 hp)
  have nd2 : (chosen2.map Prod.fst).Nodup := ((hperm.map Prod.fst).nodup_iff).2 nd
  have hb : ordered_paths chosen2 = ordered_paths chosen := by
    rw [ordered_paths, ordered_paths]
    have h1 : (chosen2.map Prod.fst).insertionSort (· ≤ ·) =
        (chosen.map Prod.fst).insertionSort (· ≤ ·) :=
      List.eq_of_perm_of_sorted
        ((List.perm_insertionSort _ _).trans ((hperm.map Prod.fst).trans
          (List.perm_insertionSort _ _).symm))
        (List.sorted_insertionSort _ _) (List.sorted_insertionSort _ _)
    rw [h1]
    exact List.filterMap_congr fun k _ => lookup_perm hperm nd2 k
  refine ⟨ha, hb, hsorted chosen, fun hne => ?_⟩
  simp only [images_to_pdf]
  rw [if_neg hne]

/-- Witness for C7: two rendered units completed out of order are
aggregated in ascending index order, and the insertion order does not
matter. -/
theorem aggregation_ordering_witness :
    ordered_paths [(1, OutPath.pageFallback 1), (0, OutPath.pageFallback 0)] =
      [OutPath.pageFallback 0, OutPath.pageFallback 1] ∧
    ordered_paths [(0, OutPath.pageFallback 0), (1, OutPath.pageFallback 1)] =
      ordered_paths [(1, OutPath.pageFallback 1), (0, OutPath.pageFallback 0)] := by
  have h := aggregation_ordering
    [(1, OutPath.pageFallback 1), (0, OutPath.pageFallback 0)]
    [(0, OutPath.pageFallback 0), (1, OutPath.pageFallback 1)]
    (by decide)
    (List.Perm.swap (1, OutPath.pageFallback 1) (0, OutPath.pageFallback 0) [])
  exact ⟨h.1.trans (by decide), h.2.1⟩

end AuditRAM
